import Mathlib

/-!
Shallow embedding of the X.509 extensions module (`src/extensions.py`):
the extension-value catalogue with its construction-time validation,
the `Extensions` lookup container, and the `GeneralNames` typed filter.

Python exceptions are modelled by `Except PyError`; Python truthiness of
optional lists / frozensets / relative distinguished names is modelled
explicitly by the `pyTruthy*` helpers (None and empty collections are
falsy).  `isinstance` guards whose failure is unrepresentable in a typed
embedding (an argument that is not even of the annotated type) are noted
in comments at the point where the source performs them; `isinstance`
guards that discriminate on representable structure (a bare IP address
versus a network, the `UnrecognizedExtension` class test) are embedded
faithfully.
-/

set_option autoImplicit false

namespace X509

/-- Dotted-string object identifier (external collaborator of the module;
equality is by dotted value). -/
structure ObjectIdentifier where
  dotted : String
deriving DecidableEq

/-- The Python error surface of the module: `TypeError`, `ValueError`
(the latter is also how the source reports unmet accessor preconditions,
the state errors of the specification), and `ExtensionNotFound` which
carries the identifier that was sought. -/
inductive PyError where
  | typeError (msg : String)
  | valueError (msg : String)
  | extensionNotFound (msg : String) (oid : ObjectIdentifier)
deriving DecidableEq

/-- Equality of modelled call outcomes is decidable. -/
instance exceptDecidableEq {ε α : Type} [DecidableEq ε] [DecidableEq α] :
    DecidableEq (Except ε α) := fun x y =>
  match x, y with
  | .error a, .error b =>
    if h : a = b then isTrue (by rw [h]) else isFalse (fun hh => h (Except.error.inj hh))
  | .error _, .ok _ => isFalse (fun hh => Except.noConfusion hh)
  | .ok _, .error _ => isFalse (fun hh => Except.noConfusion hh)
  | .ok a, .ok b =>
    if h : a = b then isTrue (by rw [h]) else isFalse (fun hh => h (Except.ok.inj hh))

/-- Modelled from the spec: an X.500 directory name, opaque at this layer
(owned by `cryptography.x509.name`, which is not part of `src/`). -/
structure Name where
  rdnSequence : List String
deriving DecidableEq

/-- Modelled from the spec: a relative distinguished name
(`cryptography.x509.name.RelativeDistinguishedName`, not part of `src/`);
a non-empty set of attributes.  Its Python truthiness is the truthiness
of its attribute collection. -/
structure RelativeDistinguishedName where
  attrs : List String
deriving DecidableEq

/-- Modelled from the spec: the payload of an `IPAddress` general name is
either a bare IPv4/IPv6 address or a network (address plus prefix length);
`cryptography.x509.general_name` is not part of `src/`.  Addresses are
abstracted to their numeric value. -/
inductive IPAddressValue where
  | v4Address (addr : Nat)
  | v6Address (addr : Nat)
  | v4Network (addr : Nat) (prefixLen : Nat)
  | v6Network (addr : Nat) (prefixLen : Nat)
deriving DecidableEq

/-- `isinstance(value, (ipaddress.IPv4Network, ipaddress.IPv6Network))`. -/
def IPAddressValue.isNetwork : IPAddressValue → Bool
  | .v4Network _ _ => true
  | .v6Network _ _ => true
  | _ => false

/-- Modelled from the spec: the closed set of `GeneralName` variants
(`cryptography.x509.general_name`, not part of `src/`), each carrying its
typed payload; `OtherName` carries a type identifier and raw bytes. -/
inductive GeneralName where
  | dNSName (value : String)
  | rFC822Name (value : String)
  | uniformResourceIdentifier (value : String)
  | directoryName (value : Name)
  | registeredID (value : ObjectIdentifier)
  | iPAddress (value : IPAddressValue)
  | otherName (typeId : ObjectIdentifier) (value : List Nat)
deriving DecidableEq

/-- The concrete `GeneralName` classes, used as the `type` argument of
`GeneralNames.get_values_for_type` (Python passes the class object). -/
inductive GNType where
  | dNSName
  | rFC822Name
  | uniformResourceIdentifier
  | directoryName
  | registeredID
  | iPAddress
  | otherName
deriving DecidableEq

/-- The class of a `GeneralName` instance (`isinstance(i, type)` on the
closed variant set). -/
def GeneralName.typeOf : GeneralName → GNType
  | .dNSName _ => .dNSName
  | .rFC822Name _ => .rFC822Name
  | .uniformResourceIdentifier _ => .uniformResourceIdentifier
  | .directoryName _ => .directoryName
  | .registeredID _ => .registeredID
  | .iPAddress _ => .iPAddress
  | .otherName _ _ => .otherName

/-- The heterogeneous results `get_values_for_type` can produce: a bare
payload (string, directory name, registered identifier, IP value, bytes)
or a whole `GeneralName` element (for the `OtherName` class). -/
inductive GNValue where
  | str (s : String)
  | dirName (n : Name)
  | oid (o : ObjectIdentifier)
  | ip (v : IPAddressValue)
  | bytes (b : List Nat)
  | full (g : GeneralName)
deriving DecidableEq

/-- The `.value` attribute of each `GeneralName` variant. -/
def GeneralName.value : GeneralName → GNValue
  | .dNSName s => .str s
  | .rFC822Name s => .str s
  | .uniformResourceIdentifier s => .str s
  | .directoryName n => .dirName n
  | .registeredID o => .oid o
  | .iPAddress v => .ip v
  | .otherName _ b => .bytes b

/-- `ReasonFlags` enumeration (`src/extensions.py`, line 691). -/
inductive ReasonFlags where
  | unspecified
  | key_compromise
  | ca_compromise
  | affiliation_changed
  | superseded
  | cessation_of_operation
  | certificate_hold
  | privilege_withdrawn
  | aa_compromise
  | remove_from_crl
deriving DecidableEq

/-- Python truthiness of an optional list (or frozenset, modelled as a
list): `None` and the empty collection are falsy. -/
def pyTruthyList {α : Type} : Option (List α) → Bool
  | none => false
  | some l => !l.isEmpty

/-- Python truthiness of an optional relative distinguished name: `None`
is falsy, an instance is as truthy as its attribute collection (the
external constructor only produces non-empty instances). -/
def pyTruthyRDN : Option RelativeDistinguishedName → Bool
  | none => false
  | some r => !r.attrs.isEmpty

/-! ## KeyUsage (`src/extensions.py`, lines 1127–1259) -/

/-- Stored state of a `KeyUsage` instance: the nine private fields set by
`KeyUsage.__init__`. -/
structure KeyUsage where
  _digital_signature : Bool
  _content_commitment : Bool
  _key_encipherment : Bool
  _data_encipherment : Bool
  _key_agreement : Bool
  _key_cert_sign : Bool
  _crl_sign : Bool
  _encipher_only : Bool
  _decipher_only : Bool
deriving DecidableEq

/-- `KeyUsage.__init__`: rejects `encipher_only`/`decipher_only` when
`key_agreement` is false, otherwise stores all nine flags verbatim. -/
def KeyUsage.init (digital_signature content_commitment key_encipherment
    data_encipherment key_agreement key_cert_sign crl_sign
    encipher_only decipher_only : Bool) : Except PyError KeyUsage :=
  if !key_agreement && (encipher_only || decipher_only) then
    .error (.valueError
      "encipher_only and decipher_only can only be true when key_agreement is true")
  else
    .ok ⟨digital_signature, content_commitment, key_encipherment,
      data_encipherment, key_agreement, key_cert_sign, crl_sign,
      encipher_only, decipher_only⟩

def KeyUsage.digital_signature (k : KeyUsage) : Bool := k._digital_signature

def KeyUsage.content_commitment (k : KeyUsage) : Bool := k._content_commitment

def KeyUsage.key_encipherment (k : KeyUsage) : Bool := k._key_encipherment

def KeyUsage.data_encipherment (k : KeyUsage) : Bool := k._data_encipherment

def KeyUsage.key_agreement (k : KeyUsage) : Bool := k._key_agreement

def KeyUsage.key_cert_sign (k : KeyUsage) : Bool := k._key_cert_sign

def KeyUsage.crl_sign (k : KeyUsage) : Bool := k._crl_sign

/-- The `encipher_only` property: raises (`ValueError`, the state error
of the specification) unless `key_agreement` is true. -/
def KeyUsage.encipher_only (k : KeyUsage) : Except PyError Bool :=
  if !k.key_agreement then
    .error (.valueError "encipher_only is undefined unless key_agreement is true")
  else
    .ok k._encipher_only

/-- The `decipher_only` property: raises (`ValueError`, the state error
of the specification) unless `key_agreement` is true. -/
def KeyUsage.decipher_only (k : KeyUsage) : Except PyError Bool :=
  if !k.key_agreement then
    .error (.valueError "decipher_only is undefined unless key_agreement is true")
  else
    .ok k._decipher_only

/-- `KeyUsage.__eq__` (between two `KeyUsage` instances): compares the
seven unguarded accessors and the two raw stored flags. -/
def KeyUsage.eq (a b : KeyUsage) : Bool :=
  a.digital_signature == b.digital_signature
    && a.content_commitment == b.content_commitment
    && a.key_encipherment == b.key_encipherment
    && a.data_encipherment == b.data_encipherment
    && a.key_agreement == b.key_agreement
    && a.key_cert_sign == b.key_cert_sign
    && a.crl_sign == b.crl_sign
    && a._encipher_only == b._encipher_only
    && a._decipher_only == b._decipher_only

/-- The accessor-observable state of a `KeyUsage` value: the seven plain
flag accessors together with the outcomes (value or error) of the two
guarded accessors. -/
def KeyUsage.observable (k : KeyUsage) :
    Bool × Bool × Bool × Bool × Bool × Bool × Bool ×
      Except PyError Bool × Except PyError Bool :=
  (k.digital_signature, k.content_commitment, k.key_encipherment,
   k.data_encipherment, k.key_agreement, k.key_cert_sign, k.crl_sign,
   k.encipher_only, k.decipher_only)

/-! ## TLSFeature (`src/extensions.py`, lines 1047–1092) -/

inductive TLSFeatureType where
  | status_request
  | status_request_v2
deriving DecidableEq

structure TLSFeature where
  _features : List TLSFeatureType
deriving DecidableEq

/-- `TLSFeature.__init__`: `raise TypeError` when
`not all(isinstance(x, TLSFeatureType) for x in features) or
len(features) == 0`; element typing is enforced by the Lean type, so
only the emptiness disjunct of the source condition can fire here. -/
def TLSFeature.init (features : List TLSFeatureType) : Except PyError TLSFeature :=
  if features.length == 0 then
    .error (.typeError
      "features must be a list of elements from the TLSFeatureType enum")
  else
    .ok ⟨features⟩

/-! ## NameConstraints (`src/extensions.py`, lines 1260–1343) -/

structure NameConstraints where
  _permitted_subtrees : Option (List GeneralName)
  _excluded_subtrees : Option (List GeneralName)
deriving DecidableEq

/-- `NameConstraints._validate_ip_name` as a predicate: some element is
an `IPAddress` general name whose value is not an IPv4/IPv6 network. -/
def hasNonNetworkIPName (tree : List GeneralName) : Bool :=
  tree.any fun name =>
    match name with
    | .iPAddress v => !v.isNetwork
    | _ => false

/-- The per-subtree checks of `NameConstraints.__init__`, in source
order: non-empty list (ValueError), then —the element `isinstance`
guard being enforced by the Lean type— `_validate_ip_name`
(TypeError). -/
def checkSubtrees (emptyMsg : String) : Option (List GeneralName) → Except PyError Unit
  | none => .ok ()
  | some l =>
    if l.isEmpty then
      .error (.valueError emptyMsg)
    else if hasNonNetworkIPName l then
      .error (.typeError
        "IPAddress name constraints must be an IPv4Network or IPv6Network object")
    else
      .ok ()

/-- `NameConstraints.__init__`: validates `permitted_subtrees`, then
`excluded_subtrees`, then requires at least one of them to be not
`None`. -/
def NameConstraints.init (permitted_subtrees excluded_subtrees : Option (List GeneralName)) :
    Except PyError NameConstraints :=
  match checkSubtrees "permitted_subtrees must be a non-empty list or None" permitted_subtrees with
  | .error e => .error e
  | .ok _ =>
    match checkSubtrees "excluded_subtrees must be a non-empty list or None" excluded_subtrees with
    | .error e => .error e
    | .ok _ =>
      if permitted_subtrees.isNone && excluded_subtrees.isNone then
        .error (.valueError
          "At least one of permitted_subtrees and excluded_subtrees must not be None")
      else
        .ok ⟨permitted_subtrees, excluded_subtrees⟩

/-! ## DistributionPoint (`src/extensions.py`, lines 579–689) -/

structure DistributionPoint where
  _full_name : Option (List GeneralName)
  _relative_name : Option RelativeDistinguishedName
  _reasons : Option (List ReasonFlags)
  _crl_issuer : Option (List GeneralName)
deriving DecidableEq

/-- `DistributionPoint.__init__`.  The source guards in order:
`if full_name and relative_name` (Python truthiness on both), the
element/`RelativeDistinguishedName`/frozenset `isinstance` guards
(enforced by the Lean types here), `reasons` truthy and containing an
excluded flag, and `reasons` truthy with no truthy
`crl_issuer`/`full_name`/`relative_name`.  The frozenset of reasons is
modelled as a list. -/
def DistributionPoint.init (full_name : Option (List GeneralName))
    (relative_name : Option RelativeDistinguishedName)
    (reasons : Option (List ReasonFlags))
    (crl_issuer : Option (List GeneralName)) : Except PyError DistributionPoint :=
  if pyTruthyList full_name && pyTruthyRDN relative_name then
    .error (.valueError
      "You cannot provide both full_name and relative_name, at least one must be None.")
  else if pyTruthyList reasons
      && ((reasons.getD []).contains ReasonFlags.unspecified
        || (reasons.getD []).contains ReasonFlags.remove_from_crl) then
    .error (.valueError
      "unspecified and remove_from_crl are not valid reasons in a DistributionPoint")
  else if pyTruthyList reasons && !pyTruthyList crl_issuer
      && !(pyTruthyList full_name || pyTruthyRDN relative_name) then
    .error (.valueError
      "You must supply crl_issuer, full_name, or relative_name when reasons is not None")
  else
    .ok ⟨full_name, relative_name, reasons, crl_issuer⟩

/-! ## IssuingDistributionPoint (`src/extensions.py`, lines 1923–2113) -/

structure IssuingDistributionPoint where
  _only_contains_user_certs : Bool
  _only_contains_ca_certs : Bool
  _indirect_crl : Bool
  _only_contains_attribute_certs : Bool
  _only_some_reasons : Option (List ReasonFlags)
  _full_name : Option (List GeneralName)
  _relative_name : Option RelativeDistinguishedName
deriving DecidableEq

/-- `IssuingDistributionPoint.__init__`.  Source guards in order: the
frozenset and boolean `isinstance` guards (enforced by the Lean types),
`only_some_reasons` truthy and containing an excluded flag (ValueError),
more than one of the four CRL-scope flags true (ValueError), and the
entirely-empty extension (ValueError); `full_name`, `relative_name` and
`only_some_reasons` count by Python truthiness in the `any` check. -/
def IssuingDistributionPoint.init (full_name : Option (List GeneralName))
    (relative_name : Option RelativeDistinguishedName)
    (only_contains_user_certs only_contains_ca_certs : Bool)
    (only_some_reasons : Option (List ReasonFlags))
    (indirect_crl only_contains_attribute_certs : Bool) :
    Except PyError IssuingDistributionPoint :=
  if pyTruthyList only_some_reasons
      && ((only_some_reasons.getD []).contains ReasonFlags.unspecified
        || (only_some_reasons.getD []).contains ReasonFlags.remove_from_crl) then
    .error (.valueError
      "unspecified and remove_from_crl are not valid reasons in an IssuingDistributionPoint")
  else if 1 < ([only_contains_user_certs, only_contains_ca_certs, indirect_crl,
      only_contains_attribute_certs].filter id).length then
    .error (.valueError
      "Only one of the following can be set to True: only_contains_user_certs, only_contains_ca_certs, indirect_crl, only_contains_attribute_certs")
  else if !(only_contains_user_certs || only_contains_ca_certs || indirect_crl
      || only_contains_attribute_certs || pyTruthyList full_name
      || pyTruthyRDN relative_name || pyTruthyList only_some_reasons) then
    .error (.valueError
      "Cannot create empty extension: if only_contains_user_certs, only_contains_ca_certs, indirect_crl, and only_contains_attribute_certs are all False, then either full_name, relative_name, or only_some_reasons must have a value.")
  else
    .ok ⟨only_contains_user_certs, only_contains_ca_certs, indirect_crl,
      only_contains_attribute_certs, only_some_reasons, full_name, relative_name⟩

/-! ## GeneralNames (`src/extensions.py`, lines 1414–1500) -/

structure GeneralNames where
  _general_names : List GeneralName
deriving DecidableEq

/-- `GeneralNames.get_values_for_type`: filter the elements by class
(`isinstance(i, type)`); return `.value` payloads, except for the
`OtherName` class where whole elements are returned. -/
def GeneralNames.get_values_for_type (gns : GeneralNames) (ty : GNType) : List GNValue :=
  let objs := gns._general_names.filter fun i => i.typeOf == ty
  if ty != GNType.otherName then
    objs.map GeneralName.value
  else
    objs.map GNValue.full

/-! ## Extensions container (`src/extensions.py`, lines 111–148) -/

/-- The extension-value classes embedded here, used as the `extclass`
argument of `get_extension_for_class` (Python passes the class
object). -/
inductive ExtClass where
  | keyUsage
  | tLSFeature
  | nameConstraints
  | issuingDistributionPoint
  | unrecognizedExtension
deriving DecidableEq

/-- Extension values of the embedded catalogue; `UnrecognizedExtension`
carries a per-instance identifier and raw bytes. -/
inductive ExtensionValue where
  | keyUsage (v : KeyUsage)
  | tLSFeature (v : TLSFeature)
  | nameConstraints (v : NameConstraints)
  | issuingDistributionPoint (v : IssuingDistributionPoint)
  | unrecognizedExtension (oid : ObjectIdentifier) (value : List Nat)
deriving DecidableEq

/-- The class of an extension value (`isinstance(ext.value, extclass)`
on the closed catalogue). -/
def ExtensionValue.classOf : ExtensionValue → ExtClass
  | .keyUsage _ => .keyUsage
  | .tLSFeature _ => .tLSFeature
  | .nameConstraints _ => .nameConstraints
  | .issuingDistributionPoint _ => .issuingDistributionPoint
  | .unrecognizedExtension _ _ => .unrecognizedExtension

/-- The class-level `oid` attribute of each catalogue class.
`UnrecognizedExtension` has no class-level identifier (its `oid` is
per-instance); `get_extension_for_class` rejects that class before ever
reading `extclass.oid`, so the value returned for it here is never
used. -/
def ExtClass.staticOid : ExtClass → ObjectIdentifier
  | .keyUsage => ⟨"2.5.29.15"⟩
  | .tLSFeature => ⟨"1.3.6.1.5.5.7.1.24"⟩
  | .nameConstraints => ⟨"2.5.29.30"⟩
  | .issuingDistributionPoint => ⟨"2.5.29.28"⟩
  | .unrecognizedExtension => ⟨""⟩

/-- `Extension`: identifier, criticality flag, wrapped value. -/
structure Extension where
  oid : ObjectIdentifier
  critical : Bool
  value : ExtensionValue
deriving DecidableEq

structure Extensions where
  _extensions : List Extension
deriving DecidableEq

/-- The scanning loop of `Extensions.get_extension_for_oid`: first
element (in insertion order) whose `oid` matches, else
`ExtensionNotFound`. -/
def findExtForOid (oid : ObjectIdentifier) : List Extension → Except PyError Extension
  | [] =>
    .error (.extensionNotFound ("No " ++ oid.dotted ++ " extension was found") oid)
  | ext :: rest =>
    if ext.oid == oid then .ok ext else findExtForOid oid rest

def Extensions.get_extension_for_oid (exts : Extensions) (oid : ObjectIdentifier) :
    Except PyError Extension :=
  findExtForOid oid exts._extensions

/-- The scanning loop of `Extensions.get_extension_for_class`: first
element (in insertion order) whose value is an instance of the class,
else `ExtensionNotFound` carrying the class-level identifier. -/
def findExtForClass (extclass : ExtClass) : List Extension → Except PyError Extension
  | [] =>
    .error (.extensionNotFound "No extension of the requested class was found"
      extclass.staticOid)
  | ext :: rest =>
    if ext.value.classOf == extclass then .ok ext else findExtForClass extclass rest

/-- `Extensions.get_extension_for_class`: rejects the
`UnrecognizedExtension` class with a `TypeError` before scanning. -/
def Extensions.get_extension_for_class (exts : Extensions) (extclass : ExtClass) :
    Except PyError Extension :=
  if extclass == ExtClass.unrecognizedExtension then
    .error (.typeError
      "UnrecognizedExtension cannot be used with get_extension_for_class because more than one instance of the class may be present.")
  else
    findExtForClass extclass exts._extensions

/-! ## Theorems -/

/-- Invariant of successfully constructed `KeyUsage` values: when
`key_agreement` is false the two stored gated flags are false. -/
def KUValid (k : KeyUsage) : Prop :=
  k._key_agreement = false → k._encipher_only = false ∧ k._decipher_only = false

/-- C1: `KeyUsage` construction fails whenever `key_agreement` is false
and at least one of `encipher_only`/`decipher_only` is true; when
construction succeeds with `key_agreement` true the two gated accessors
return exactly the constructor arguments; and on an instance constructed
with `key_agreement` false either accessor fails with the state error
(realized by the source as a `ValueError` on the unmet precondition). -/
theorem keyUsage_construction_and_accessors :
    (∀ ds cc ke de kcs cs eo dO : Bool, (eo || dO) = true →
      KeyUsage.init ds cc ke de false kcs cs eo dO =
        .error (.valueError
          "encipher_only and decipher_only can only be true when key_agreement is true")) ∧
    (∀ ds cc ke de kcs cs eo dO : Bool, ∀ k : KeyUsage,
      KeyUsage.init ds cc ke de true kcs cs eo dO = .ok k →
      k.encipher_only = .ok eo ∧ k.decipher_only = .ok dO) ∧
    (∀ ds cc ke de kcs cs eo dO : Bool, ∀ k : KeyUsage,
      KeyUsage.init ds cc ke de false kcs cs eo dO = .ok k →
      k.encipher_only =
          .error (.valueError "encipher_only is undefined unless key_agreement is true") ∧
        k.decipher_only =
          .error (.valueError "decipher_only is undefined unless key_agreement is true")) := by
  refine ⟨?_, ?_, ?_⟩
  · intro ds cc ke de kcs cs eo dO h
    simp [KeyUsage.init, h]
  · intro ds cc ke de kcs cs eo dO k h
    simp [KeyUsage.init] at h
    subst h
    simp [KeyUsage.encipher_only, KeyUsage.decipher_only, KeyUsage.key_agreement]
  · intro ds cc ke de kcs cs eo dO k h
    by_cases hc : (eo || dO) = true
    · simp [KeyUsage.init, hc] at h
    · simp [KeyUsage.init, hc] at h
      subst h
      simp [KeyUsage.encipher_only, KeyUsage.decipher_only, KeyUsage.key_agreement]

/-- Concrete instantiation of `keyUsage_construction_and_accessors`. -/
theorem keyUsage_construction_and_accessors_witness :
    (KeyUsage.init false false false false false false false true false =
      .error (.valueError
        "encipher_only and decipher_only can only be true when key_agreement is true")) ∧
    ((⟨false, false, false, false, true, false, false, true, false⟩ : KeyUsage).encipher_only
          = .ok true ∧
      (⟨false, false, false, false, true, false, false, true, false⟩ : KeyUsage).decipher_only
          = .ok false) ∧
    ((⟨false, false, false, false, false, false, false, false, false⟩ : KeyUsage).encipher_only
          = .error (.valueError "encipher_only is undefined unless key_agreement is true") ∧
      (⟨false, false, false, false, false, false, false, false, false⟩ : KeyUsage).decipher_only
          = .error (.valueError "decipher_only is undefined unless key_agreement is true")) :=
  ⟨keyUsage_construction_and_accessors.1 false false false false false false true false rfl,
   keyUsage_construction_and_accessors.2.1 false false false false false false true false
     ⟨false, false, false, false, true, false, false, true, false⟩ rfl,
   keyUsage_construction_and_accessors.2.2 false false false false false false false false
     ⟨false, false, false, false, false, false, false, false, false⟩ rfl⟩

/-- C10: every successful construction satisfies the stored-field
invariant (`key_agreement` false forces both stored gated flags false),
and on invariant-satisfying values the equality operation — which
compares the raw stored fields — coincides with equality of the
accessor-observable state. -/
theorem keyUsage_stored_invariant_eq :
    (∀ ds cc ke de ka kcs cs eo dO : Bool, ∀ k : KeyUsage,
      KeyUsage.init ds cc ke de ka kcs cs eo dO = .ok k → KUValid k) ∧
    (∀ k1 k2 : KeyUsage, KUValid k1 → KUValid k2 →
      (KeyUsage.eq k1 k2 = true ↔ k1.observable = k2.observable)) := by
  constructor
  · intro ds cc ke de ka kcs cs eo dO k h
    by_cases hc : (!ka && (eo || dO)) = true
    · simp [KeyUsage.init, hc] at h
    · simp [KeyUsage.init, hc] at h
      subst h
      intro hka
      subst hka
      simp at hc
      simp [hc]
  · intro k1 k2 h1 h2
    obtain ⟨d1, c1, e1, a1, ka1, s1, r1, eo1, dO1⟩ := k1
    obtain ⟨d2, c2, e2, a2, ka2, s2, r2, eo2, dO2⟩ := k2
    simp only [KUValid] at h1 h2
    cases ka1 <;> cases ka2 <;>
      simp_all [KeyUsage.eq, KeyUsage.observable, KeyUsage.encipher_only,
        KeyUsage.decipher_only, KeyUsage.digital_signature, KeyUsage.content_commitment,
        KeyUsage.key_encipherment, KeyUsage.data_encipherment, KeyUsage.key_agreement,
        KeyUsage.key_cert_sign, KeyUsage.crl_sign] <;>
      tauto

/-- Concrete instantiation of `keyUsage_stored_invariant_eq`. -/
theorem keyUsage_stored_invariant_eq_witness :
    KUValid (⟨true, false, false, false, false, false, true, false, false⟩ : KeyUsage) ∧
    (KeyUsage.eq ⟨true, false, false, false, false, false, true, false, false⟩
        ⟨true, false, false, false, false, false, true, false, false⟩ = true ↔
      KeyUsage.observable ⟨true, false, false, false, false, false, true, false, false⟩ =
        KeyUsage.observable ⟨true, false, false, false, false, false, true, false, false⟩) :=
  ⟨keyUsage_stored_invariant_eq.1 true false false false false false true false false
     ⟨true, false, false, false, false, false, true, false, false⟩ rfl,
   keyUsage_stored_invariant_eq.2
     ⟨true, false, false, false, false, false, true, false, false⟩
     ⟨true, false, false, false, false, false, true, false, false⟩
     (fun _ => ⟨rfl, rfl⟩) (fun _ => ⟨rfl, rfl⟩)⟩

/-- C8 counterexample: the empty feature list is rejected, but with the
type-mismatch error (`TypeError`) — the same kind the source uses for a
wrongly-typed element — not with a value/logic-constraint error, so the
two failure causes are not distinguishable as the claim states. -/
theorem tlsFeature_empty_error_kind_cex :
    TLSFeature.init [] =
      .error (.typeError
        "features must be a list of elements from the TLSFeatureType enum") := rfl

/-- C8 (amended): `TLSFeature` construction with an empty feature list
fails, but the failure is reported with the type-mismatch error kind
shared with wrongly-typed elements; construction with a non-empty list
of `TLSFeatureType` elements succeeds. -/
theorem tlsFeature_empty_spec :
    (TLSFeature.init [] =
      .error (.typeError
        "features must be a list of elements from the TLSFeatureType enum")) ∧
    (∀ fs : List TLSFeatureType, fs ≠ [] → TLSFeature.init fs = .ok ⟨fs⟩) := by
  constructor
  · rfl
  · intro fs h
    have hl : (fs.length == 0) = false := by
      cases fs with
      | nil => exact absurd rfl h
      | cons a t => rfl
    simp [TLSFeature.init, hl]

/-- Concrete instantiation of `tlsFeature_empty_spec`. -/
theorem tlsFeature_empty_spec_witness :
    TLSFeature.init [TLSFeatureType.status_request] =
      .ok ⟨[TLSFeatureType.status_request]⟩ :=
  tlsFeature_empty_spec.2 [TLSFeatureType.status_request] (by simp)

/-- A sample relative distinguished name (the external constructor only
produces instances with a non-empty attribute collection). -/
def rdnCN : RelativeDistinguishedName := ⟨["CN=example"]⟩

/-- C2 counterexample: `full_name = []` is not `None`, and a relative
name is supplied as well, yet construction succeeds — the source guard
`if full_name and relative_name` tests Python truthiness, and an empty
list is falsy. -/
theorem distributionPoint_name_exclusivity_cex :
    (some ([] : List GeneralName)).isSome = true ∧
    (some rdnCN).isSome = true ∧
    DistributionPoint.init (some []) (some rdnCN) none none =
      .ok ⟨some [], some rdnCN, none, none⟩ :=
  ⟨rfl, rfl, rfl⟩

/-- C2 (amended): `full_name` and `relative_name` are mutually exclusive
when both are truthy — whenever `full_name` is a supplied non-empty list
and `relative_name` is supplied (its attribute collection non-empty),
construction fails with a value error; an empty `full_name` list
together with a relative name is accepted. -/
theorem distributionPoint_name_exclusivity (fn : Option (List GeneralName))
    (rn : Option RelativeDistinguishedName) (rs : Option (List ReasonFlags))
    (ci : Option (List GeneralName)) :
    pyTruthyList fn = true → pyTruthyRDN rn = true →
    DistributionPoint.init fn rn rs ci =
      .error (.valueError
        "You cannot provide both full_name and relative_name, at least one must be None.") := by
  intro h1 h2
  simp [DistributionPoint.init, h1, h2]

/-- Concrete instantiation of `distributionPoint_name_exclusivity`. -/
theorem distributionPoint_name_exclusivity_witness :
    DistributionPoint.init (some [GeneralName.dNSName "example.com"]) (some rdnCN) none none =
      .error (.valueError
        "You cannot provide both full_name and relative_name, at least one must be None.") :=
  distributionPoint_name_exclusivity (some [GeneralName.dNSName "example.com"])
    (some rdnCN) none none rfl rfl

/-- C9: `DistributionPoint` construction succeeds with `reasons` the
empty frozenset even though `full_name`, `relative_name` and
`crl_issuer` are all `None`: the excluded-flag check and the
reasons-require-a-name check are guarded by the truthiness of `reasons`
and fire only for non-empty reason sets. -/
theorem distributionPoint_empty_reasons_ok :
    (DistributionPoint.init none none (some []) none =
      .ok ⟨none, none, some [], none⟩) ∧
    (∀ (fn : Option (List GeneralName)) (rn : Option RelativeDistinguishedName)
        (ci : Option (List GeneralName)),
      (pyTruthyList fn && pyTruthyRDN rn) = false →
      DistributionPoint.init fn rn (some []) ci = .ok ⟨fn, rn, some [], ci⟩) := by
  constructor
  · rfl
  · intro fn rn ci h
    simp only [DistributionPoint.init]
    rw [if_neg (by simp [h]), if_neg (by simp [pyTruthyList]),
      if_neg (by simp [pyTruthyList])]

/-- Concrete instantiation of `distributionPoint_empty_reasons_ok`. -/
theorem distributionPoint_empty_reasons_ok_witness :
    DistributionPoint.init (some [GeneralName.dNSName "example.com"]) none (some []) none =
      .ok ⟨some [GeneralName.dNSName "example.com"], none, some [], none⟩ :=
  distributionPoint_empty_reasons_ok.2 (some [GeneralName.dNSName "example.com"]) none none rfl

/-- C6: `IssuingDistributionPoint` construction fails when the four
CRL-scope flags are all false and `full_name`, `relative_name` and
`only_some_reasons` carry no value (the entirely empty extension); it
fails when more than one of the four flags is true; and it succeeds with
exactly one flag true and every other field absent. -/
theorem issuingDistributionPoint_flag_spec :
    (∀ (fn : Option (List GeneralName)) (rn : Option RelativeDistinguishedName)
        (rs : Option (List ReasonFlags)),
      pyTruthyList fn = false → pyTruthyRDN rn = false → pyTruthyList rs = false →
      IssuingDistributionPoint.init fn rn false false rs false false =
        .error (.valueError
          "Cannot create empty extension: if only_contains_user_certs, only_contains_ca_certs, indirect_crl, and only_contains_attribute_certs are all False, then either full_name, relative_name, or only_some_reasons must have a value.")) ∧
    (∀ (fn : Option (List GeneralName)) (rn : Option RelativeDistinguishedName)
        (rs : Option (List ReasonFlags)) (u c i a : Bool),
      1 < ([u, c, i, a].filter id).length →
      ∃ e, IssuingDistributionPoint.init fn rn u c rs i a = .error e) ∧
    (∀ u c i a : Bool, ([u, c, i, a].filter id).length = 1 →
      IssuingDistributionPoint.init none none u c none i a =
        .ok ⟨u, c, i, a, none, none, none⟩) := by
  refine ⟨?_, ?_, ?_⟩
  · intro fn rn rs h1 h2 h3
    simp [IssuingDistributionPoint.init, h1, h2, h3]
  · intro fn rn rs u c i a h
    by_cases hc : (pyTruthyList rs
        && ((rs.getD []).contains ReasonFlags.unspecified
          || (rs.getD []).contains ReasonFlags.remove_from_crl)) = true
    · exact ⟨_, by simp only [IssuingDistributionPoint.init]; rw [if_pos hc]⟩
    · exact ⟨_, by simp only [IssuingDistributionPoint.init]; rw [if_neg hc, if_pos h]⟩
  · intro u c i a
    cases u <;> cases c <;> cases i <;> cases a <;> decide

/-- Concrete instantiation of `issuingDistributionPoint_flag_spec`. -/
theorem issuingDistributionPoint_flag_spec_witness :
    (IssuingDistributionPoint.init none none false false none false false =
      .error (.valueError
        "Cannot create empty extension: if only_contains_user_certs, only_contains_ca_certs, indirect_crl, and only_contains_attribute_certs are all False, then either full_name, relative_name, or only_some_reasons must have a value.")) ∧
    (∃ e, IssuingDistributionPoint.init none none true true none false false = .error e) ∧
    (IssuingDistributionPoint.init none none true false none false false =
      .ok ⟨true, false, false, false, none, none, none⟩) :=
  ⟨issuingDistributionPoint_flag_spec.1 none none none rfl rfl rfl,
   issuingDistributionPoint_flag_spec.2.1 none none none true true false false (by decide),
   issuingDistributionPoint_flag_spec.2.2 true false false false (by decide)⟩

/-- Bare-address detection lifted to an optional subtree list. -/
def hasBareIP (t : Option (List GeneralName)) : Bool :=
  hasNonNetworkIPName (t.getD [])

theorem hasNonNetworkIPName_ne_nil {l : List GeneralName}
    (h : hasNonNetworkIPName l = true) : l ≠ [] := by
  intro he
  subst he
  simp [hasNonNetworkIPName] at h

theorem checkSubtrees_none (msg : String) : checkSubtrees msg none = .ok () := rfl

theorem checkSubtrees_some_ok (msg : String) (l : List GeneralName) (h1 : l ≠ [])
    (h2 : hasNonNetworkIPName l = false) : checkSubtrees msg (some l) = .ok () := by
  have h1' : l.isEmpty = false := by
    cases l with
    | nil => exact absurd rfl h1
    | cons a t => rfl
  simp [checkSubtrees, h1', h2]

theorem checkSubtrees_some_bare (msg : String) (l : List GeneralName)
    (h2 : hasNonNetworkIPName l = true) :
    checkSubtrees msg (some l) =
      .error (.typeError
        "IPAddress name constraints must be an IPv4Network or IPv6Network object") := by
  have h1' : l.isEmpty = false := by
    cases l with
    | nil => exact absurd h2 (by simp [hasNonNetworkIPName])
    | cons a t => rfl
  simp [checkSubtrees, h1', h2]

/-- C7 counterexample: `excluded_subtrees` contains a bare-address
`IPAddress`, yet the failure is the value error for the empty
`permitted_subtrees` list, which the source checks first — not a type
error. -/
theorem nameConstraints_bare_ip_cex :
    hasNonNetworkIPName [GeneralName.iPAddress (IPAddressValue.v4Address 0)] = true ∧
    NameConstraints.init (some [])
        (some [GeneralName.iPAddress (IPAddressValue.v4Address 0)]) =
      .error (.valueError "permitted_subtrees must be a non-empty list or None") :=
  ⟨rfl, rfl⟩

/-- C7 (amended): provided no supplied subtree list is empty, any
bare-address `IPAddress` element in `permitted_subtrees` or
`excluded_subtrees` makes construction fail with a type error; and when
the other invariants hold (at least one list supplied, supplied lists
non-empty) and every `IPAddress` element carries a network, construction
succeeds. -/
theorem nameConstraints_ip_network_spec :
    (∀ ps es : Option (List GeneralName), ps ≠ some [] →
      (hasBareIP ps || hasBareIP es) = true →
      NameConstraints.init ps es =
        .error (.typeError
          "IPAddress name constraints must be an IPv4Network or IPv6Network object")) ∧
    (∀ ps es : Option (List GeneralName), ps ≠ some [] → es ≠ some [] →
      ¬(ps = none ∧ es = none) →
      hasBareIP ps = false → hasBareIP es = false →
      NameConstraints.init ps es = .ok ⟨ps, es⟩) := by
  constructor
  · intro ps es hps hbare
    match ps with
    | none =>
      have hes : hasBareIP es = true := by simpa [hasBareIP, hasNonNetworkIPName] using hbare
      match es with
      | none => simp [hasBareIP, hasNonNetworkIPName] at hes
      | some l2 =>
        have hl2 : hasNonNetworkIPName l2 = true := by simpa [hasBareIP] using hes
        simp [NameConstraints.init, checkSubtrees_none, checkSubtrees_some_bare _ l2 hl2]
    | some l1 =>
      by_cases hb1 : hasNonNetworkIPName l1 = true
      · simp [NameConstraints.init, checkSubtrees_some_bare _ l1 hb1]
      · have hb1' : hasNonNetworkIPName l1 = false := by simpa using hb1
        have hl1ne : l1 ≠ [] := fun he => hps (by rw [he])
        have hes : hasBareIP es = true := by
          simpa [hasBareIP, hb1'] using hbare
        match es with
        | none => simp [hasBareIP, hasNonNetworkIPName] at hes
        | some l2 =>
          have hl2 : hasNonNetworkIPName l2 = true := by simpa [hasBareIP] using hes
          simp [NameConstraints.init, checkSubtrees_some_ok _ l1 hl1ne hb1',
            checkSubtrees_some_bare _ l2 hl2]
  · intro ps es hps hes hnn hb1 hb2
    match ps, es with
    | none, none => exact absurd ⟨rfl, rfl⟩ hnn
    | none, some l2 =>
      have hl2ne : l2 ≠ [] := fun he => hes (by rw [he])
      have hb2' : hasNonNetworkIPName l2 = false := by simpa [hasBareIP] using hb2
      simp [NameConstraints.init, checkSubtrees_none, checkSubtrees_some_ok _ l2 hl2ne hb2']
    | some l1, none =>
      have hl1ne : l1 ≠ [] := fun he => hps (by rw [he])
      have hb1' : hasNonNetworkIPName l1 = false := by simpa [hasBareIP] using hb1
      simp [NameConstraints.init, checkSubtrees_none, checkSubtrees_some_ok _ l1 hl1ne hb1']
    | some l1, some l2 =>
      have hl1ne : l1 ≠ [] := fun he => hps (by rw [he])
      have hl2ne : l2 ≠ [] := fun he => hes (by rw [he])
      have hb1' : hasNonNetworkIPName l1 = false := by simpa [hasBareIP] using hb1
      have hb2' : hasNonNetworkIPName l2 = false := by simpa [hasBareIP] using hb2
      simp [NameConstraints.init, checkSubtrees_some_ok _ l1 hl1ne hb1',
        checkSubtrees_some_ok _ l2 hl2ne hb2']

/-- Concrete instantiation of `nameConstraints_ip_network_spec`: the
specification's pair — a bare IPv4 address in `permitted_subtrees` fails
with a type error, the same input with an IPv4 network succeeds. -/
theorem nameConstraints_ip_network_spec_witness :
    (NameConstraints.init
        (some [GeneralName.iPAddress (IPAddressValue.v4Address 3232235520)]) none =
      .error (.typeError
        "IPAddress name constraints must be an IPv4Network or IPv6Network object")) ∧
    (NameConstraints.init
        (some [GeneralName.iPAddress (IPAddressValue.v4Network 3232235520 24)]) none =
      .ok ⟨some [GeneralName.iPAddress (IPAddressValue.v4Network 3232235520 24)], none⟩) :=
  ⟨nameConstraints_ip_network_spec.1
      (some [GeneralName.iPAddress (IPAddressValue.v4Address 3232235520)]) none
      (by simp) (by decide),
   nameConstraints_ip_network_spec.2
      (some [GeneralName.iPAddress (IPAddressValue.v4Network 3232235520 24)]) none
      (by simp) (by simp) (by simp) (by decide) (by decide)⟩

/-- C3: `get_extension_for_class` applied to the `UnrecognizedExtension`
class fails with the usage `TypeError` for every container — the guard
runs before any scan, so the contents (which may well include
`UnrecognizedExtension` values) are never consulted and no not-found
error can arise. -/
theorem extensions_unrecognized_class_lookup (exts : Extensions) :
    exts.get_extension_for_class ExtClass.unrecognizedExtension =
      .error (.typeError
        "UnrecognizedExtension cannot be used with get_extension_for_class because more than one instance of the class may be present.") := rfl

theorem findExtForOid_first (oid : ObjectIdentifier) (l : List Extension) :
    ∀ (i : Nat) (hi : i < l.length), (l.get ⟨i, hi⟩).oid = oid →
      (∀ (j : Nat) (hj : j < l.length), j < i → (l.get ⟨j, hj⟩).oid ≠ oid) →
      findExtForOid oid l = .ok (l.get ⟨i, hi⟩) := by
  induction l with
  | nil =>
    intro i hi
    exact absurd hi (Nat.not_lt_zero i)
  | cons e rest ih =>
    intro i hi hmatch hfirst
    cases i with
    | zero =>
      simp only [List.get] at hmatch ⊢
      rw [findExtForOid, if_pos (by simpa using hmatch)]
    | succ i' =>
      have hne : e.oid ≠ oid := by
        have := hfirst 0 (Nat.succ_pos _) (Nat.succ_pos _)
        simpa using this
      rw [findExtForOid, if_neg (by simpa using hne)]
      exact ih i' (Nat.lt_of_succ_lt_succ hi) hmatch
        (fun j hj hlt => hfirst (j + 1) (Nat.succ_lt_succ hj) (Nat.succ_lt_succ hlt))

theorem findExtForOid_none (oid : ObjectIdentifier) (l : List Extension)
    (h : ∀ e ∈ l, e.oid ≠ oid) :
    findExtForOid oid l =
      .error (.extensionNotFound ("No " ++ oid.dotted ++ " extension was found") oid) := by
  induction l with
  | nil => rfl
  | cons e rest ih =>
    have hne : e.oid ≠ oid := h e (List.mem_cons_self _ _)
    rw [findExtForOid, if_neg (by simpa using hne)]
    exact ih (fun x hx => h x (List.mem_cons_of_mem _ hx))

/-- C4: `get_extension_for_oid` returns the first extension in insertion
order whose identifier matches when one exists, and fails with
`ExtensionNotFound` carrying the sought identifier when no contained
extension matches (the empty container included). -/
theorem extensions_get_for_oid_first_match (exts : Extensions) (oid : ObjectIdentifier) :
    (∀ (i : Nat) (hi : i < exts._extensions.length),
      (exts._extensions.get ⟨i, hi⟩).oid = oid →
      (∀ (j : Nat) (hj : j < exts._extensions.length), j < i →
        (exts._extensions.get ⟨j, hj⟩).oid ≠ oid) →
      exts.get_extension_for_oid oid = .ok (exts._extensions.get ⟨i, hi⟩)) ∧
    ((∀ e ∈ exts._extensions, e.oid ≠ oid) →
      exts.get_extension_for_oid oid =
        .error (.extensionNotFound ("No " ++ oid.dotted ++ " extension was found") oid)) :=
  ⟨fun i hi hmatch hfirst =>
      findExtForOid_first oid exts._extensions i hi hmatch hfirst,
   fun h => findExtForOid_none oid exts._extensions h⟩

/-- Two sample wrapped extensions sharing the key-usage identifier. -/
def extSampleA : Extension :=
  ⟨⟨"2.5.29.15"⟩, true, .unrecognizedExtension ⟨"2.5.29.15"⟩ [1]⟩

def extSampleB : Extension :=
  ⟨⟨"2.5.29.15"⟩, false, .unrecognizedExtension ⟨"2.5.29.15"⟩ [2]⟩

/-- Concrete instantiation of `extensions_get_for_oid_first_match`: with
two matching extensions the first one is returned, and the empty
container yields the not-found error. -/
theorem extensions_get_for_oid_first_match_witness :
    (Extensions.mk [extSampleA, extSampleB]).get_extension_for_oid ⟨"2.5.29.15"⟩ =
        .ok extSampleA ∧
    (Extensions.mk []).get_extension_for_oid ⟨"2.5.29.15"⟩ =
        .error (.extensionNotFound "No 2.5.29.15 extension was found" ⟨"2.5.29.15"⟩) :=
  ⟨(extensions_get_for_oid_first_match ⟨[extSampleA, extSampleB]⟩ ⟨"2.5.29.15"⟩).1
      0 (by simp) rfl (fun j hj hlt => absurd hlt (Nat.not_lt_zero j)),
   (extensions_get_for_oid_first_match ⟨[]⟩ ⟨"2.5.29.15"⟩).2 (by simp)⟩

/-- C5: `get_values_for_type` returns, in original insertion order,
exactly the `.value` payloads of the elements of the requested variant;
for the `OtherName` class it returns the whole elements (type identifier
plus raw bytes); and with no matching element the result is the empty
sequence, not an error. -/
theorem generalNames_get_values_for_type_spec (gns : GeneralNames) (ty : GNType) :
    (gns.get_values_for_type ty =
      (gns._general_names.filter fun g => g.typeOf == ty).map
        (fun g => if ty == GNType.otherName then GNValue.full g else g.value)) ∧
    (gns.get_values_for_type GNType.otherName =
      (gns._general_names.filter fun g => g.typeOf == GNType.otherName).map GNValue.full) ∧
    ((∀ g ∈ gns._general_names, g.typeOf ≠ ty) → gns.get_values_for_type ty = []) := by
  refine ⟨?_, ?_, ?_⟩
  · by_cases hty : ty = GNType.otherName
    · subst hty
      simp [GeneralNames.get_values_for_type]
    · have hty' : (ty == GNType.otherName) = false := by simpa using hty
      simp [GeneralNames.get_values_for_type, hty']
      exact fun h => absurd h hty
  · simp [GeneralNames.get_values_for_type]
  · intro h
    have hfil : (gns._general_names.filter fun g => g.typeOf == ty) = [] := by
      rw [List.filter_eq_nil_iff]
      intro g hg
      simpa using h g hg
    simp [GeneralNames.get_values_for_type, hfil]

/-- Concrete instantiation of `generalNames_get_values_for_type_spec`:
a mixed sequence filtered for a variant with no occurrences yields the
empty sequence. -/
theorem generalNames_get_values_for_type_spec_witness :
    GeneralNames.get_values_for_type ⟨[GeneralName.dNSName "example.com",
        GeneralName.otherName ⟨"1.2.3.4"⟩ [0, 1]]⟩ GNType.iPAddress = [] :=
  (generalNames_get_values_for_type_spec ⟨[GeneralName.dNSName "example.com",
      GeneralName.otherName ⟨"1.2.3.4"⟩ [0, 1]]⟩ GNType.iPAddress).2.2 (by decide)

end X509
